import Mathlib

/-!
Verification of the YATI Worker alert decision engine (src/index.js).

The JavaScript source is shallowly embedded as pure Lean functions:
* JS numbers are modelled by JSNum: NaN, +Infinity, -Infinity, or a finite
  value carried as a rational number (IEEE-754 rounding is abstracted away;
  all values appearing in the program's comparisons are short decimals).
* Awaited I/O (feed fetch, enrichment fetch, Twilio dispatch) is modelled by
  oracle inputs in TickInput: the engine is a pure function from the
  environment, the persisted KV state and the tick's I/O outcomes to a
  TickResult (new KV state plus a record of observable actions).
* KV values that the source stores through String(x) are kept in their
  pre-stringified form (String is injective on the stored ids/magnitudes).
-/

namespace Yati

/-- A JavaScript number: NaN, an infinity, or a finite value (as a rational). -/
inductive JSNum where
  | nan
  | posInf
  | negInf
  | fin (q : ℚ)
deriving DecidableEq, Repr

/-- The JS comparison a < b: false whenever either side is NaN. -/
def jsLt : JSNum → JSNum → Bool
  | JSNum.nan, _ => false
  | _, JSNum.nan => false
  | JSNum.posInf, _ => false
  | JSNum.negInf, JSNum.negInf => false
  | JSNum.negInf, _ => true
  | JSNum.fin _, JSNum.negInf => false
  | JSNum.fin _, JSNum.posInf => true
  | JSNum.fin a, JSNum.fin b => a < b

/-- The JS comparison a >= b: false whenever either side is NaN. -/
def jsGe : JSNum → JSNum → Bool
  | JSNum.nan, _ => false
  | _, JSNum.nan => false
  | JSNum.posInf, _ => true
  | JSNum.negInf, JSNum.negInf => true
  | JSNum.negInf, _ => false
  | JSNum.fin _, JSNum.posInf => false
  | JSNum.fin _, JSNum.negInf => true
  | JSNum.fin a, JSNum.fin b => b ≤ a

/-- Number.isFinite. -/
def isFiniteJS : JSNum → Bool
  | JSNum.fin _ => true
  | _ => false

/-- Whitespace skipped by parseFloat (ASCII subset of JS StrWhiteSpace). -/
def isWs (c : Char) : Bool :=
  c = ' ' ∨ c = '\t' ∨ c = '\n' ∨ c = '\r' ∨ c = '\x0b' ∨ c = '\x0c'

/-- Numeric value of a decimal digit character. -/
def digitVal (c : Char) : ℕ := c.toNat - '0'.toNat

/-- Value of a list of decimal digit characters read base 10. -/
def digitsToNat (ds : List Char) : ℕ :=
  ds.foldl (fun a c => a * 10 + digitVal c) 0

/-- Optional leading sign; returns (isNegative, rest). -/
def parseSign : List Char → (Bool × List Char)
  | '-' :: r => (true, r)
  | '+' :: r => (false, r)
  | cs => (false, cs)

/-- JS parseFloat on a character list: skip whitespace, optional sign, then
the longest prefix that is Infinity or a decimal literal with optional
fraction and exponent; NaN when no digits are found. Overflow to an IEEE
infinity is not modelled (values stay exact rationals). -/
def parseFloatCore (cs0 : List Char) : JSNum :=
  let cs1 := cs0.dropWhile isWs
  let sr := parseSign cs1
  let neg := sr.1
  let cs2 := sr.2
  if cs2.take 8 = "Infinity".toList then
    if neg then JSNum.negInf else JSNum.posInf
  else
    let intDs := cs2.takeWhile Char.isDigit
    let cs3 := cs2.dropWhile Char.isDigit
    let fr :=
      match cs3 with
      | '.' :: r => (r.takeWhile Char.isDigit, r.dropWhile Char.isDigit)
      | _ => (([] : List Char), cs3)
    let fracDs := fr.1
    let cs4 := fr.2
    if intDs.isEmpty ∧ fracDs.isEmpty then JSNum.nan
    else
      let e : ℤ :=
        match cs4 with
        | c :: r =>
          if c = 'e' ∨ c = 'E' then
            let er := parseSign r
            let eDs := er.2.takeWhile Char.isDigit
            if eDs.isEmpty then 0
            else if er.1 then -(digitsToNat eDs : ℤ) else (digitsToNat eDs : ℤ)
          else 0
        | [] => 0
      let num0 : ℕ :=
        (digitsToNat intDs * 10 ^ fracDs.length + digitsToNat fracDs) * 10 ^ e.toNat
      let den : ℕ := 10 ^ fracDs.length * 10 ^ (-e).toNat
      JSNum.fin (Rat.divInt (if neg then -(num0 : ℤ) else (num0 : ℤ)) (den : ℤ))

/-- JS parseFloat on a string. -/
def parseFloatJS (s : String) : JSNum := parseFloatCore s.toList

/-- JS String.prototype.replace with a plain-string pattern replaces only the
first occurrence; this is the character-level engine for replacing the first
comma by a dot. -/
def replaceFirstCommaList : List Char → List Char
  | [] => []
  | c :: r => if c = ',' then '.' :: r else c :: replaceFirstCommaList r

/-- The source expression String(x).replace(",", ".") on a string input. -/
def replaceFirstComma (s : String) : String :=
  String.mk (replaceFirstCommaList s.toList)

/-- The JS truthy-or on strings: a || b. -/
def jsOrStr (a b : String) : String := if a = "" then b else a

/-- JS String.prototype.toLowerCase (ASCII case mapping; the location names
and channel flags in the data never use locale-sensitive characters). -/
def jsToLower (s : String) : String := String.mk (s.toList.map Char.toLower)

/-- JS String.prototype.trim (ASCII whitespace subset). -/
def jsTrim (s : String) : String :=
  String.mk (((s.toList.dropWhile isWs).reverse.dropWhile isWs).reverse)

/-- A JS value sitting in a magnitude-carrying field of a feed event:
a number, a string, or a (non-null) object with an optional value field
(objNone: the value field is absent or nullish; objSome v: the value field
holds v). Converting a plain object to a string yields a bracketed object
tag, which parseFloat reads as NaN. -/
inductive MagVal where
  | num (x : JSNum)
  | str (s : String)
  | objNone
  | objSome (v : MagVal)
deriving DecidableEq, Repr

/-- The latest feed event, with the fields the source inspects. The id field
holds the result of String(latest.id) when latest.id is not nullish (String
is injective on the id values stored by the feed); none means the id is
absent or nullish. -/
structure FeedEvent where
  id : Option String
  magnitude : Option MagVal
  magnitud : Option MagVal
  mag : Option MagVal
deriving DecidableEq, Repr

/-- A non-array feed response body; each field is the events/data/results
property when it holds an array (none = absent or nullish). -/
structure FeedObj where
  events : Option (List FeedEvent)
  data : Option (List FeedEvent)
  results : Option (List FeedEvent)
deriving DecidableEq, Repr

/-- A successfully fetched and JSON-decoded feed response: either a top-level
array or an object carrying the array under an alternative key. -/
inductive FeedData where
  | arr (l : List FeedEvent)
  | obj (o : FeedObj)
deriving DecidableEq, Repr

/-- Source: Array.isArray(data) ? data : (data?.events || data?.data ||
data?.results || []). An array is truthy even when empty, so the first
present field wins. -/
def extractEvents : FeedData → List FeedEvent
  | FeedData.arr l => l
  | FeedData.obj o => ((o.events <|> o.data) <|> o.results).getD []

/-- Source lines picking the raw magnitude value: when latest.magnitude is a
non-null object the value field is taken, otherwise the nullish-coalescing
chain latest.magnitud, latest.mag, latest.magnitude. -/
def pickMagVal (e : FeedEvent) : Option MagVal :=
  match e.magnitude with
  | some MagVal.objNone => none
  | some (MagVal.objSome v) => some v
  | _ => (e.magnitud <|> e.mag) <|> e.magnitude

/-- Source: parseFloat(String(magVal).replace(",", ".")). For a JS number x,
String(x) roundtrips through parseFloat (NaN and the infinities stringify to
the words NaN, Infinity and -Infinity, which parseFloat maps back), so the
num case is the identity; undefined stringifies to a non-numeric word, a plain object
stringifies to a bracketed tag, both parsing to NaN. -/
def parseMag : Option MagVal → JSNum
  | none => JSNum.nan
  | some (MagVal.num x) => x
  | some (MagVal.str s) => parseFloatJS (replaceFirstComma s)
  | some MagVal.objNone => JSNum.nan
  | some (MagVal.objSome _) => JSNum.nan

/-- The magnitude M the engine derives from the latest feed event. -/
def eventMag (e : FeedEvent) : JSNum := parseMag (pickMagVal e)

/-- One entry of the enrichment response's localidades array. -/
structure Localidad where
  localidad : Option String
  intensidad_predicha : Option String
deriving DecidableEq, Repr

/-- The evento object of the enrichment response. The magnitud field holds
the image of the raw JSON value under the JS Number conversion (some
JSNum.nan: present but not convertible to a number); the id-like fields hold
string values (none = absent or nullish). -/
structure Evento where
  id : Option String
  event_id : Option String
  evento_id : Option String
  ID : Option String
  magnitud : Option JSNum
  FechaHora : Option String
  Referencia : Option String
deriving DecidableEq, Repr

/-- The empty object used by payload?.evento || {}. -/
def Evento.empty : Evento := ⟨none, none, none, none, none, none, none⟩

/-- A successfully fetched and JSON-decoded enrichment response.
localidades is none when the property is absent or not an array. -/
structure Payload where
  evento : Option Evento
  localidades : Option (List Localidad)
deriving DecidableEq, Repr

/-- Source: const mag = Number(evento?.magnitud ?? M). -/
def effectiveMag (payload : Payload) (M : ℚ) : JSNum :=
  ((payload.evento.getD Evento.empty).magnitud).getD (JSNum.fin M)

/-- Source: new Set(locs.map(x => String(x?.localidad || "").toLowerCase())
.filter(Boolean)); membership in the set equals membership in this list. -/
def locNamesOf (payload : Payload) : List String :=
  ((payload.localidades.getD []).map
    (fun x => jsToLower (x.localidad.getD ""))).filter (fun s => s ≠ "")

/-- Source: const payloadId = String(evento?.id ?? evento?.event_id ??
evento?.evento_id ?? evento?.ID ?? latestId). -/
def payloadIdOf (payload : Payload) (latestId : String) : String :=
  let ev := payload.evento.getD Evento.empty
  (((ev.id <|> ev.event_id) <|> ev.evento_id) <|> ev.ID).getD latestId

/-- A raw element of the alert_targets_v1 JSON array. String-valued fields
are none when absent or falsy; min_mag holds the image of the raw value
under the JS Number conversion when the property is present (some
JSNum.nan: present but not numeric); enabled is the truthiness of the raw
enabled property. -/
structure RawTarget where
  user : Option String
  phone : Option String
  min_mag : Option JSNum
  localidad : Option String
  enabled : Bool
deriving DecidableEq, Repr

/-- The raw state of the alert_targets_v1 KV key: absent, a string JSON.parse
throws on, valid JSON that is not an array, or an array of entries. -/
inductive TargetsRaw where
  | missing
  | malformed
  | nonArray
  | arr (xs : List RawTarget)
deriving DecidableEq, Repr

/-- A normalized target as produced by loadTargets. -/
structure Target where
  user : String
  phone : String
  min_mag : JSNum
  localidad : String
  enabled : Bool
deriving DecidableEq, Repr

/-- Source function loadTargets: missing key, a JSON.parse error and a
non-array value all yield the empty list; an array is mapped to normalized
targets with min_mag defaulting to 0. -/
def loadTargets : TargetsRaw → List Target
  | TargetsRaw.missing => []
  | TargetsRaw.malformed => []
  | TargetsRaw.nonArray => []
  | TargetsRaw.arr xs =>
    xs.map (fun x =>
      { user := x.user.getD ""
        phone := x.phone.getD ""
        min_mag := x.min_mag.getD (JSNum.fin 0)
        localidad := x.localidad.getD ""
        enabled := x.enabled })

/-- The anonymous predicate of targets.filter in checkForNewEvent:
reject disabled targets, reject when mag < Number(t.min_mag ?? 0), then an
empty trimmed localidad matches everything, otherwise the lowercased
localidad must be one of the enrichment location names. -/
def selectTarget (mag : JSNum) (locNames : List String) (t : Target) : Bool :=
  if ¬ t.enabled then false
  else if jsLt mag t.min_mag then false
  else
    let loc := jsTrim t.localidad
    if loc = "" then true
    else locNames.contains (jsToLower loc)

/-- The persisted YATI_KV state, restricted to the keys the engine touches.
The two magnitude keys are stored through String(x) in the source and kept
pre-stringified here. -/
structure KV where
  last_seen_event_id : Option String
  last_seen_mag : Option JSNum
  last_seen_at : Option String
  last_alerted_event_id : Option String
  last_alerted_payload_id : Option String
  last_alerted_mag : Option JSNum
  last_alerted_at : Option String
  alert_targets_v1 : TargetsRaw
deriving DecidableEq, Repr

/-- Source function markSeen. -/
def markSeen (kv : KV) (eventId : String) (mag : JSNum) (now : String) : KV :=
  { kv with
    last_seen_event_id := some eventId
    last_seen_mag := some mag
    last_seen_at := some now }

/-- Source function markAlerted; the payload id is stored through
String(payloadId || eventId), falling back to the event id when the payload
id is the empty string. -/
def markAlerted (kv : KV) (eventId : String) (mag : JSNum)
    (payloadId : String) (now : String) : KV :=
  { kv with
    last_alerted_event_id := some eventId
    last_alerted_payload_id := some (if payloadId = "" then eventId else payloadId)
    last_alerted_mag := some mag
    last_alerted_at := some now }

/-- The per-target Twilio loop: targets with an empty trimmed phone are
skipped without an attempt; each attempted dispatch (SMS or call according
to the configured channel, both of which either resolve or throw) succeeds
according to the sendOk oracle indexed by attempt order. Returns the list
of attempted phone numbers and okCount. -/
def dispatchLoop (sendOk : ℕ → Bool) : List Target → ℕ → (List String × ℕ)
  | [], _ => ([], 0)
  | t :: rest, k =>
    let toPhone := jsTrim t.phone
    if toPhone = "" then dispatchLoop sendOk rest k
    else
      let r := dispatchLoop sendOk rest (k + 1)
      (toPhone :: r.1, (if sendOk k then 1 else 0) + r.2)

/-- The configuration the engine reads from env (fields the decision logic
depends on; the intensity/top/channel knobs only shape the message text and
the enrichment URL, whose outcome is already an oracle input). -/
structure Env where
  RAILWAY_BASE_URL : Option String
  hasYatiKV : Bool
  MIN_EVENT_MAGNITUDE : Option String
deriving DecidableEq, Repr

/-- The outcomes of this tick's awaited I/O: feed is the decoded feed body
(none: network error, non-OK status or JSON error), enrich likewise for the
Railway /alerta/v1 call, sendOk gives the outcome of the k-th attempted
Twilio dispatch, and now is the ISO timestamp of new Date(). -/
structure TickInput where
  feed : Option FeedData
  enrich : Option Payload
  sendOk : ℕ → Bool
  now : String

/-- Observable outcome of one tick: the final KV state, whether the
enrichment endpoint was called, the attempted dispatch phone numbers in
order, and okCount. -/
structure TickResult where
  kv : KV
  enrichCalled : Bool
  dispatches : List String
  okCount : ℕ
deriving DecidableEq, Repr

/-- The alert decision engine checkForNewEvent (final revision of
src/index.js), as a pure state transition over the KV state given the
tick's I/O outcomes. Each early return of the source is a branch producing
the current KV state. -/
def checkForNewEvent (env : Env) (kv : KV) (inp : TickInput) : TickResult :=
  let minMag := parseFloatJS (jsOrStr (env.MIN_EVENT_MAGNITUDE.getD "") "4")
  if env.RAILWAY_BASE_URL.getD "" = "" then ⟨kv, false, [], 0⟩
  else if ¬ env.hasYatiKV then ⟨kv, false, [], 0⟩
  else
    match inp.feed with
    | none => ⟨kv, false, [], 0⟩
    | some fd =>
      match extractEvents fd with
      | [] => ⟨kv, false, [], 0⟩
      | latest :: _ =>
        let latestId := latest.id.getD ""
        if latestId = "" then ⟨kv, false, [], 0⟩
        else
          match eventMag latest with
          | JSNum.fin m =>
            let kv1 :=
              if kv.last_seen_event_id = some latestId then kv
              else markSeen kv latestId (JSNum.fin m) inp.now
            if kv1.last_alerted_event_id = some latestId then ⟨kv1, false, [], 0⟩
            else if jsLt (JSNum.fin m) minMag then ⟨kv1, false, [], 0⟩
            else
              match inp.enrich with
              | none => ⟨kv1, true, [], 0⟩
              | some payload =>
                let mag := effectiveMag payload m
                let payloadId := payloadIdOf payload latestId
                let locNames := locNamesOf payload
                let targets := loadTargets kv1.alert_targets_v1
                if targets.isEmpty then ⟨kv1, true, [], 0⟩
                else
                  let selected := targets.filter (selectTarget mag locNames)
                  if selected.isEmpty then
                    ⟨markAlerted kv1 latestId mag payloadId inp.now, true, [], 0⟩
                  else
                    let d := dispatchLoop inp.sendOk selected 0
                    if d.2 > 0 then
                      ⟨markAlerted kv1 latestId mag payloadId inp.now, true, d.1, d.2⟩
                    else ⟨kv1, true, d.1, d.2⟩
          | _ => ⟨kv, false, [], 0⟩

/-- The env fields the /test-alert route reads. -/
structure TAEnv where
  ENABLE_TEST_ALERT : Option String
  TEST_ALERT_PIN : Option String
  TEST_ALERT_TO : Option String
deriving DecidableEq, Repr

/-- An HTTP response: status and body. -/
structure HttpResp where
  status : ℕ
  body : String
deriving DecidableEq, Repr

/-- The /test-alert branch of the fetch handler. The three query parameters
are none when absent (searchParams.get returns null). The second component
is the background job registered with ctx.waitUntil: the (to, msg) pair
passed to testManualAlert, or none when no dispatch pass is triggered. The
response is produced before the job runs, so it never depends on the
dispatch outcome. -/
def handleTestAlert (env : TAEnv) (pinQ toQ msgQ : Option String) :
    HttpResp × Option (String × String) :=
  if env.ENABLE_TEST_ALERT ≠ some "1" then (⟨404, "Not Found"⟩, none)
  else
    let pin := pinQ.getD ""
    if env.TEST_ALERT_PIN.getD "" = "" ∨ pin ≠ env.TEST_ALERT_PIN.getD "" then
      (⟨401, "Unauthorized"⟩, none)
    else
      let toArg := jsOrStr (toQ.getD "") (env.TEST_ALERT_TO.getD "")
      (⟨200, "OK - test alert triggered"⟩, some (toArg, msgQ.getD ""))

/-- The selection predicate as the specification words it: enabled, and
mag >= Number(t.min_mag ?? 0) under JS comparison semantics, and the
trimmed localidad is empty or its lowercased form is one of the enrichment
location names. -/
def specSelectTarget (mag : JSNum) (locNames : List String) (t : Target) : Bool :=
  t.enabled && jsGe mag t.min_mag &&
    (jsTrim t.localidad == "" || locNames.contains (jsToLower (jsTrim t.localidad)))

/-! Helper lemmas shared by the claim theorems. -/

theorem markSeen_alerted_eq (kv : KV) (i : String) (m : JSNum) (n : String) :
    (markSeen kv i m n).last_alerted_event_id = kv.last_alerted_event_id ∧
    (markSeen kv i m n).last_alerted_payload_id = kv.last_alerted_payload_id ∧
    (markSeen kv i m n).last_alerted_mag = kv.last_alerted_mag ∧
    (markSeen kv i m n).last_alerted_at = kv.last_alerted_at ∧
    (markSeen kv i m n).alert_targets_v1 = kv.alert_targets_v1 :=
  ⟨rfl, rfl, rfl, rfl, rfl⟩

/-- When the latest feed event's id already equals the stored
last_alerted_event_id, the tick stops at the dedup check: no enrichment
call, no dispatch attempt, and every last_alerted key keeps its value. -/
theorem alertedHit_no_dispatch (env : Env) (kv : KV) (inp : TickInput)
    (fd : FeedData) (latest : FeedEvent) (es : List FeedEvent)
    (hfeed : inp.feed = some fd)
    (hev : extractEvents fd = latest :: es)
    (ha : kv.last_alerted_event_id = some (latest.id.getD "")) :
    (checkForNewEvent env kv inp).enrichCalled = false ∧
    (checkForNewEvent env kv inp).dispatches = [] ∧
    (checkForNewEvent env kv inp).okCount = 0 ∧
    (checkForNewEvent env kv inp).kv.last_alerted_event_id = kv.last_alerted_event_id ∧
    (checkForNewEvent env kv inp).kv.last_alerted_payload_id = kv.last_alerted_payload_id ∧
    (checkForNewEvent env kv inp).kv.last_alerted_mag = kv.last_alerted_mag ∧
    (checkForNewEvent env kv inp).kv.last_alerted_at = kv.last_alerted_at := by
  by_cases h1 : env.RAILWAY_BASE_URL.getD "" = ""
  · simp [checkForNewEvent, h1]
  · by_cases h2 : env.hasYatiKV
    · by_cases hid : latest.id.getD "" = ""
      · simp [checkForNewEvent, h1, h2, hfeed, hev, hid]
      · rcases hM : eventMag latest with _ | _ | _ | m <;>
          by_cases hseen : kv.last_seen_event_id = some (latest.id.getD "") <;>
            simp [checkForNewEvent, h1, h2, hfeed, hev, hid, hM, hseen, ha, markSeen]
    · simp [checkForNewEvent, h1, h2]

/-- Characterization of a tick that reaches the target-filtering stage:
all early guards passed, the enrichment call returned a payload and the
loaded target list is non-empty. -/
theorem run_dispatch_eq (env : Env) (kv : KV) (inp : TickInput)
    (fd : FeedData) (latest : FeedEvent) (es : List FeedEvent) (m : ℚ)
    (payload : Payload)
    (h1 : ¬ env.RAILWAY_BASE_URL.getD "" = "")
    (h2 : env.hasYatiKV = true)
    (hfeed : inp.feed = some fd)
    (hev : extractEvents fd = latest :: es)
    (hid : ¬ latest.id.getD "" = "")
    (hM : eventMag latest = JSNum.fin m)
    (ha : ¬ kv.last_alerted_event_id = some (latest.id.getD ""))
    (hg : jsLt (JSNum.fin m)
      (parseFloatJS (jsOrStr (env.MIN_EVENT_MAGNITUDE.getD "") "4")) = false)
    (hp : inp.enrich = some payload)
    (ht : (loadTargets kv.alert_targets_v1).isEmpty = false) :
    checkForNewEvent env kv inp =
      (let latestId := latest.id.getD ""
       let kv1 := if kv.last_seen_event_id = some latestId then kv
         else markSeen kv latestId (JSNum.fin m) inp.now
       let mag := effectiveMag payload m
       let selected := (loadTargets kv.alert_targets_v1).filter
         (selectTarget mag (locNamesOf payload))
       if selected.isEmpty then
         ⟨markAlerted kv1 latestId mag (payloadIdOf payload latestId) inp.now, true, [], 0⟩
       else
         let d := dispatchLoop inp.sendOk selected 0
         if d.2 > 0 then
           ⟨markAlerted kv1 latestId mag (payloadIdOf payload latestId) inp.now, true, d.1, d.2⟩
         else ⟨kv1, true, d.1, d.2⟩) := by
  by_cases hseen : kv.last_seen_event_id = some (latest.id.getD "") <;>
    simp [checkForNewEvent, h1, h2, hfeed, hev, hid, hM, hseen, ha, hg, hp, ht, markSeen]

/-- A strictly positive okCount only arises in the final dispatch branch,
where the alerted watermark is committed to the latest feed id. -/
theorem okCount_pos_commits (env : Env) (kv : KV) (inp : TickInput)
    (fd : FeedData) (latest : FeedEvent) (es : List FeedEvent)
    (hfeed : inp.feed = some fd)
    (hev : extractEvents fd = latest :: es)
    (hok : (checkForNewEvent env kv inp).okCount > 0) :
    (checkForNewEvent env kv inp).kv.last_alerted_event_id =
      some (latest.id.getD "") := by
  by_cases h1 : env.RAILWAY_BASE_URL.getD "" = ""
  · simp [checkForNewEvent, h1] at hok
  by_cases h2 : env.hasYatiKV
  swap
  · simp [checkForNewEvent, h1, h2] at hok
  by_cases hid : latest.id.getD "" = ""
  · simp [checkForNewEvent, h1, h2, hfeed, hev, hid] at hok
  rcases hM : eventMag latest with _ | _ | _ | m
  · simp [checkForNewEvent, h1, h2, hfeed, hev, hid, hM] at hok
  · simp [checkForNewEvent, h1, h2, hfeed, hev, hid, hM] at hok
  · simp [checkForNewEvent, h1, h2, hfeed, hev, hid, hM] at hok
  by_cases ha : kv.last_alerted_event_id = some (latest.id.getD "")
  · by_cases hseen : kv.last_seen_event_id = some (latest.id.getD "") <;>
      simp [checkForNewEvent, h1, h2, hfeed, hev, hid, hM, hseen, ha, markSeen] at hok
  by_cases hg : jsLt (JSNum.fin m)
      (parseFloatJS (jsOrStr (env.MIN_EVENT_MAGNITUDE.getD "") "4")) = true
  · by_cases hseen : kv.last_seen_event_id = some (latest.id.getD "") <;>
      simp [checkForNewEvent, h1, h2, hfeed, hev, hid, hM, hseen, ha, hg, markSeen] at hok
  rcases hp : inp.enrich with _ | payload
  · by_cases hseen : kv.last_seen_event_id = some (latest.id.getD "") <;>
      simp [checkForNewEvent, h1, h2, hfeed, hev, hid, hM, hseen, ha, hg, hp, markSeen] at hok
  by_cases ht : (loadTargets kv.alert_targets_v1).isEmpty = true
  · by_cases hseen : kv.last_seen_event_id = some (latest.id.getD "") <;>
      simp [checkForNewEvent, h1, h2, hfeed, hev, hid, hM, hseen, ha, hg, hp, ht, markSeen] at hok
  rw [run_dispatch_eq env kv inp fd latest es m payload h1 (by simpa using h2) hfeed hev hid hM ha
    (by simpa using hg) hp (by simpa using ht)] at hok ⊢
  by_cases hsel : ((loadTargets kv.alert_targets_v1).filter
      (selectTarget (effectiveMag payload m) (locNamesOf payload))).isEmpty = true
  · simp [hsel] at hok
  by_cases hd : (dispatchLoop inp.sendOk ((loadTargets kv.alert_targets_v1).filter
      (selectTarget (effectiveMag payload m) (locNamesOf payload))) 0).2 > 0
  · simp [hsel, hd, markAlerted]
  · simp [hsel, hd] at hok

/-- On a tick that reaches the target-filtering stage, the attempted
dispatch list is exactly what the Twilio loop produces on the filtered
selection (empty when the selection is empty). -/
theorem dispatches_eq (env : Env) (kv : KV) (inp : TickInput)
    (fd : FeedData) (latest : FeedEvent) (es : List FeedEvent) (m : ℚ)
    (payload : Payload)
    (h1 : ¬ env.RAILWAY_BASE_URL.getD "" = "")
    (h2 : env.hasYatiKV = true)
    (hfeed : inp.feed = some fd)
    (hev : extractEvents fd = latest :: es)
    (hid : ¬ latest.id.getD "" = "")
    (hM : eventMag latest = JSNum.fin m)
    (ha : ¬ kv.last_alerted_event_id = some (latest.id.getD ""))
    (hg : jsLt (JSNum.fin m)
      (parseFloatJS (jsOrStr (env.MIN_EVENT_MAGNITUDE.getD "") "4")) = false)
    (hp : inp.enrich = some payload)
    (ht : (loadTargets kv.alert_targets_v1).isEmpty = false) :
    (checkForNewEvent env kv inp).dispatches =
      (dispatchLoop inp.sendOk ((loadTargets kv.alert_targets_v1).filter
        (selectTarget (effectiveMag payload m) (locNamesOf payload))) 0).1 := by
  rw [run_dispatch_eq env kv inp fd latest es m payload h1 h2 hfeed hev hid hM ha hg hp ht]
  by_cases hsel : ((loadTargets kv.alert_targets_v1).filter
      (selectTarget (effectiveMag payload m) (locNamesOf payload))).isEmpty = true
  · have : (loadTargets kv.alert_targets_v1).filter
        (selectTarget (effectiveMag payload m) (locNamesOf payload)) = [] := by
      simpa using hsel
    simp [this, dispatchLoop]
  · by_cases hd : (dispatchLoop inp.sendOk ((loadTargets kv.alert_targets_v1).filter
        (selectTarget (effectiveMag payload m) (locNamesOf payload))) 0).2 > 0 <;>
      simp [hsel, hd]

/-! The claim theorems. -/

/-- C1: Idempotence of the alert decision engine: for every tick in which
the feed fetch succeeds and its latest event yields a non-empty id equal to
the stored last_alerted_event_id, the run performs zero dispatch calls (no
enrichment fetch, no Twilio call) and leaves every last_alerted key
unchanged; in particular, two consecutive ticks over the same feed response
dispatch at most once (a tick that delivers to at least one target commits
the watermark, so the identical next tick makes no dispatch attempt). -/
theorem dedup_idempotent (env : Env) (kv : KV) (inp : TickInput)
    (fd : FeedData) (latest : FeedEvent) (es : List FeedEvent)
    (hfeed : inp.feed = some fd)
    (hev : extractEvents fd = latest :: es)
    (hid : latest.id.getD "" ≠ "") :
    (kv.last_alerted_event_id = some (latest.id.getD "") →
      (checkForNewEvent env kv inp).enrichCalled = false ∧
      (checkForNewEvent env kv inp).dispatches = [] ∧
      (checkForNewEvent env kv inp).kv.last_alerted_event_id = kv.last_alerted_event_id ∧
      (checkForNewEvent env kv inp).kv.last_alerted_payload_id = kv.last_alerted_payload_id ∧
      (checkForNewEvent env kv inp).kv.last_alerted_mag = kv.last_alerted_mag ∧
      (checkForNewEvent env kv inp).kv.last_alerted_at = kv.last_alerted_at) ∧
    ((checkForNewEvent env kv inp).okCount > 0 →
      (checkForNewEvent env (checkForNewEvent env kv inp).kv inp).dispatches = []) := by
  constructor
  · intro ha
    have h := alertedHit_no_dispatch env kv inp fd latest es hfeed hev ha
    exact ⟨h.1, h.2.1, h.2.2.2.1, h.2.2.2.2.1, h.2.2.2.2.2.1, h.2.2.2.2.2.2⟩
  · intro hok
    have hcommit := okCount_pos_commits env kv inp fd latest es hfeed hev hok
    have h := alertedHit_no_dispatch env (checkForNewEvent env kv inp).kv inp
      fd latest es hfeed hev hcommit
    exact h.2.1

def c1Latest : FeedEvent := ⟨some "E1", some (MagVal.num (JSNum.fin 5)), none, none⟩

def c1KV : KV := ⟨some "E1", none, none, some "E1", some "E1", some (JSNum.fin 5), some "T0",
  TargetsRaw.arr [⟨some "u", some "+560001", some (JSNum.fin 4), some "", true⟩]⟩

def c1Inp : TickInput := ⟨some (FeedData.arr [c1Latest]), none, fun _ => true, "T1"⟩

/-- Witness for C1: a concrete tick whose latest id equals the stored
last_alerted_event_id makes no enrichment call and no dispatch. -/
theorem dedup_idempotent_witness :
    (checkForNewEvent ⟨some "https://r", true, none⟩ c1KV c1Inp).enrichCalled = false ∧
    (checkForNewEvent ⟨some "https://r", true, none⟩ c1KV c1Inp).dispatches = [] ∧
    (checkForNewEvent ⟨some "https://r", true, none⟩ c1KV c1Inp).kv.last_alerted_event_id =
      c1KV.last_alerted_event_id := by
  have h := (dedup_idempotent ⟨some "https://r", true, none⟩ c1KV c1Inp
    (FeedData.arr [c1Latest]) c1Latest [] rfl rfl (by decide)).1 (by decide)
  exact ⟨h.1, h.2.1, h.2.2.1⟩

/-- C2: Commit-iff-partial-success: on a tick that reaches the dispatch
loop with a non-empty selected-target list, the alerted watermark is
written if and only if at least one per-target dispatch succeeded
(okCount > 0); when every dispatch attempt fails, all last_alerted keys
keep their prior values and an identical subsequent tick re-attempts
dispatch to the same targets. -/
theorem commit_iff_partial_success (env : Env) (kv : KV) (inp : TickInput)
    (fd : FeedData) (latest : FeedEvent) (es : List FeedEvent) (m : ℚ)
    (payload : Payload) (t0 : Target) (ts : List Target)
    (h1 : ¬ env.RAILWAY_BASE_URL.getD "" = "")
    (h2 : env.hasYatiKV = true)
    (hfeed : inp.feed = some fd)
    (hev : extractEvents fd = latest :: es)
    (hid : ¬ latest.id.getD "" = "")
    (hM : eventMag latest = JSNum.fin m)
    (ha : ¬ kv.last_alerted_event_id = some (latest.id.getD ""))
    (hg : jsLt (JSNum.fin m)
      (parseFloatJS (jsOrStr (env.MIN_EVENT_MAGNITUDE.getD "") "4")) = false)
    (hp : inp.enrich = some payload)
    (hsel : (loadTargets kv.alert_targets_v1).filter
      (selectTarget (effectiveMag payload m) (locNamesOf payload)) = t0 :: ts) :
    ((checkForNewEvent env kv inp).kv.last_alerted_event_id =
        some (latest.id.getD "") ↔ (checkForNewEvent env kv inp).okCount > 0) ∧
    ((checkForNewEvent env kv inp).okCount > 0 →
      (checkForNewEvent env kv inp).kv.last_alerted_mag =
        some (effectiveMag payload m) ∧
      (checkForNewEvent env kv inp).kv.last_alerted_at = some inp.now) ∧
    ((checkForNewEvent env kv inp).okCount = 0 →
      (checkForNewEvent env kv inp).kv.last_alerted_event_id = kv.last_alerted_event_id ∧
      (checkForNewEvent env kv inp).kv.last_alerted_payload_id = kv.last_alerted_payload_id ∧
      (checkForNewEvent env kv inp).kv.last_alerted_mag = kv.last_alerted_mag ∧
      (checkForNewEvent env kv inp).kv.last_alerted_at = kv.last_alerted_at ∧
      (checkForNewEvent env (checkForNewEvent env kv inp).kv inp).dispatches =
        (checkForNewEvent env kv inp).dispatches) := by
  have ht : (loadTargets kv.alert_targets_v1).isEmpty = false := by
    rcases h : loadTargets kv.alert_targets_v1 with _ | _
    · rw [h] at hsel; simp at hsel
    · simp [h]
  rw [run_dispatch_eq env kv inp fd latest es m payload h1 h2 hfeed hev hid hM ha hg hp ht]
  simp only [hsel, List.isEmpty_cons, Bool.false_eq_true, if_false]
  set kv1 := if kv.last_seen_event_id = some (latest.id.getD "") then kv
    else markSeen kv (latest.id.getD "") (JSNum.fin m) inp.now with hkv1
  have hA1 : kv1.last_alerted_event_id = kv.last_alerted_event_id := by
    rw [hkv1]; by_cases hs : kv.last_seen_event_id = some (latest.id.getD "") <;>
      simp [hs, markSeen]
  have hA2 : kv1.last_alerted_payload_id = kv.last_alerted_payload_id := by
    rw [hkv1]; by_cases hs : kv.last_seen_event_id = some (latest.id.getD "") <;>
      simp [hs, markSeen]
  have hA3 : kv1.last_alerted_mag = kv.last_alerted_mag := by
    rw [hkv1]; by_cases hs : kv.last_seen_event_id = some (latest.id.getD "") <;>
      simp [hs, markSeen]
  have hA4 : kv1.last_alerted_at = kv.last_alerted_at := by
    rw [hkv1]; by_cases hs : kv.last_seen_event_id = some (latest.id.getD "") <;>
      simp [hs, markSeen]
  have hT : kv1.alert_targets_v1 = kv.alert_targets_v1 := by
    rw [hkv1]; by_cases hs : kv.last_seen_event_id = some (latest.id.getD "") <;>
      simp [hs, markSeen]
  by_cases hd : (dispatchLoop inp.sendOk (t0 :: ts) 0).2 > 0
  · simp only [hd, if_true]
    refine ⟨by simp [markAlerted, hd], fun _ => by simp [markAlerted], fun h0 => ?_⟩
    simp at h0
    omega
  · have hd0 : (dispatchLoop inp.sendOk (t0 :: ts) 0).2 = 0 := by omega
    simp only [hd, if_false]
    have ha1 : ¬ kv1.last_alerted_event_id = some (latest.id.getD "") := by
      rw [hA1]; exact ha
    have ht1 : (loadTargets kv1.alert_targets_v1).isEmpty = false := by
      rw [hT]; exact ht
    refine ⟨by simp [ha1, hd], fun hpos => absurd hpos (by simp [hd0]),
      fun _ => ⟨hA1, hA2, hA3, hA4, ?_⟩⟩
    rw [dispatches_eq env kv1 inp fd latest es m payload h1 h2 hfeed hev hid hM ha1 hg hp ht1,
      hT, hsel]

def baseEnv : Env := ⟨some "https://r", true, none⟩

def c2Latest : FeedEvent := ⟨some "E2", some (MagVal.num (JSNum.fin 5)), none, none⟩

def c2Target : Target := ⟨"u", "+560001", JSNum.fin 4, "", true⟩

def c2KV : KV := ⟨none, none, none, none, none, none, none,
  TargetsRaw.arr [⟨some "u", some "+560001", some (JSNum.fin 4), some "", true⟩]⟩

def c2Payload : Payload :=
  ⟨some ⟨none, none, none, none, some (JSNum.fin 5), none, none⟩, some []⟩

def c2Inp : TickInput := ⟨some (FeedData.arr [c2Latest]), some c2Payload, fun _ => false, "T1"⟩

/-- Witness for C2: a concrete tick on which the single attempted dispatch
fails leaves every last_alerted key unchanged, and the identical next tick
attempts the same dispatch list again. -/
theorem commit_iff_partial_success_witness :
    (checkForNewEvent baseEnv c2KV c2Inp).okCount = 0 ∧
    (checkForNewEvent baseEnv c2KV c2Inp).dispatches = ["+560001"] ∧
    (checkForNewEvent baseEnv c2KV c2Inp).kv.last_alerted_event_id = c2KV.last_alerted_event_id ∧
    (checkForNewEvent baseEnv (checkForNewEvent baseEnv c2KV c2Inp).kv c2Inp).dispatches =
      (checkForNewEvent baseEnv c2KV c2Inp).dispatches := by
  have h := (commit_iff_partial_success baseEnv c2KV c2Inp (FeedData.arr [c2Latest]) c2Latest []
    5 c2Payload c2Target [] (by decide) rfl rfl rfl (by decide) (by decide) (by decide)
    (by decide) rfl (by decide)).2.2 (by decide)
  exact ⟨by decide, by decide, h.1, h.2.2.2.2⟩

/-- C3: Magnitude gate is non-committing: on a tick whose latest event has a
non-empty id different from the stored last_alerted_event_id and a parsed
magnitude strictly below the configured global minimum magnitude, the run
returns before any enrichment fetch or dispatch and every last_alerted key
keeps its value from before the tick. -/
theorem magnitude_gate_noncommit (env : Env) (kv : KV) (inp : TickInput)
    (fd : FeedData) (latest : FeedEvent) (es : List FeedEvent) (m g : ℚ)
    (hfeed : inp.feed = some fd)
    (hev : extractEvents fd = latest :: es)
    (hid : latest.id.getD "" ≠ "")
    (hM : eventMag latest = JSNum.fin m)
    (ha : kv.last_alerted_event_id ≠ some (latest.id.getD ""))
    (hgv : parseFloatJS (jsOrStr (env.MIN_EVENT_MAGNITUDE.getD "") "4") = JSNum.fin g)
    (hlt : m < g) :
    (checkForNewEvent env kv inp).enrichCalled = false ∧
    (checkForNewEvent env kv inp).dispatches = [] ∧
    (checkForNewEvent env kv inp).kv.last_alerted_event_id = kv.last_alerted_event_id ∧
    (checkForNewEvent env kv inp).kv.last_alerted_payload_id = kv.last_alerted_payload_id ∧
    (checkForNewEvent env kv inp).kv.last_alerted_mag = kv.last_alerted_mag ∧
    (checkForNewEvent env kv inp).kv.last_alerted_at = kv.last_alerted_at := by
  by_cases h1 : env.RAILWAY_BASE_URL.getD "" = ""
  · simp [checkForNewEvent, h1]
  by_cases h2 : env.hasYatiKV
  swap
  · simp [checkForNewEvent, h1, h2]
  by_cases hseen : kv.last_seen_event_id = some (latest.id.getD "") <;>
    simp [checkForNewEvent, h1, h2, hfeed, hev, hid, hM, hgv, hseen, ha, markSeen,
      jsLt, hlt]

def c3Latest : FeedEvent := ⟨some "E3", some (MagVal.num (JSNum.fin 3)), none, none⟩

def c3KV : KV := ⟨none, none, none, some "E0", some "P0", some (JSNum.fin 6), some "T0",
  TargetsRaw.arr [⟨some "u", some "+560001", some (JSNum.fin 0), some "", true⟩]⟩

def c3Inp : TickInput := ⟨some (FeedData.arr [c3Latest]), none, fun _ => true, "T1"⟩

/-- Witness for C3: a concrete new event of magnitude 3 under the default
threshold 4 aborts with no enrichment call, no dispatch, and an unchanged
alerted watermark. -/
theorem magnitude_gate_noncommit_witness :
    (checkForNewEvent baseEnv c3KV c3Inp).enrichCalled = false ∧
    (checkForNewEvent baseEnv c3KV c3Inp).dispatches = [] ∧
    (checkForNewEvent baseEnv c3KV c3Inp).kv.last_alerted_event_id = c3KV.last_alerted_event_id := by
  have h := magnitude_gate_noncommit baseEnv c3KV c3Inp (FeedData.arr [c3Latest]) c3Latest []
    3 4 rfl rfl (by decide) (by decide) (by decide) (by decide) (by norm_num)
  exact ⟨h.1, h.2.1, h.2.2.1⟩

/-- C4: No-targets-selected commits the watermark: on a tick where
enrichment succeeds, the loaded target list is non-empty and the filter
selects zero targets, the run dispatches nothing but commits the alerted
watermark, storing the feed's latestId as last_alerted_event_id (the dedup
key) and, as last_alerted_payload_id, the enrichment response's event id
when one is present there, falling back to latestId when the response
carries no id field; an identical later tick therefore never reprocesses
the event (it stops at the dedup check with no enrichment call). -/
theorem no_targets_selected_commits (env : Env) (kv : KV) (inp : TickInput)
    (fd : FeedData) (latest : FeedEvent) (es : List FeedEvent) (m : ℚ)
    (payload : Payload)
    (h1 : ¬ env.RAILWAY_BASE_URL.getD "" = "")
    (h2 : env.hasYatiKV = true)
    (hfeed : inp.feed = some fd)
    (hev : extractEvents fd = latest :: es)
    (hid : ¬ latest.id.getD "" = "")
    (hM : eventMag latest = JSNum.fin m)
    (ha : ¬ kv.last_alerted_event_id = some (latest.id.getD ""))
    (hg : jsLt (JSNum.fin m)
      (parseFloatJS (jsOrStr (env.MIN_EVENT_MAGNITUDE.getD "") "4")) = false)
    (hp : inp.enrich = some payload)
    (ht : (loadTargets kv.alert_targets_v1).isEmpty = false)
    (hsel : (loadTargets kv.alert_targets_v1).filter
      (selectTarget (effectiveMag payload m) (locNamesOf payload)) = []) :
    (checkForNewEvent env kv inp).dispatches = [] ∧
    (checkForNewEvent env kv inp).kv.last_alerted_event_id = some (latest.id.getD "") ∧
    (checkForNewEvent env kv inp).kv.last_alerted_mag = some (effectiveMag payload m) ∧
    (checkForNewEvent env kv inp).kv.last_alerted_at = some inp.now ∧
    (∀ pid, (payload.evento.getD Evento.empty).id = some pid → pid ≠ "" →
      (checkForNewEvent env kv inp).kv.last_alerted_payload_id = some pid) ∧
    ((payload.evento.getD Evento.empty).id = none →
      (payload.evento.getD Evento.empty).event_id = none →
      (payload.evento.getD Evento.empty).evento_id = none →
      (payload.evento.getD Evento.empty).ID = none →
      (checkForNewEvent env kv inp).kv.last_alerted_payload_id =
        some (latest.id.getD "")) ∧
    (checkForNewEvent env (checkForNewEvent env kv inp).kv inp).enrichCalled = false ∧
    (checkForNewEvent env (checkForNewEvent env kv inp).kv inp).dispatches = [] := by
  rw [run_dispatch_eq env kv inp fd latest es m payload h1 h2 hfeed hev hid hM ha hg hp ht]
  simp only [hsel, List.isEmpty_nil, if_true]
  refine ⟨by trivial, by simp [markAlerted], by simp [markAlerted], by simp [markAlerted],
    ?_, ?_, ?_⟩
  · intro pid hpid hne
    simp [markAlerted, payloadIdOf, hpid, hne]
  · intro hnone1 hnone2 hnone3 hnone4
    simp [markAlerted, payloadIdOf, hnone1, hnone2, hnone3, hnone4, hid]
  · have hcommit : (markAlerted
        (if kv.last_seen_event_id = some (latest.id.getD "") then kv
         else markSeen kv (latest.id.getD "") (JSNum.fin m) inp.now)
        (latest.id.getD "") (effectiveMag payload m)
        (payloadIdOf payload (latest.id.getD "")) inp.now).last_alerted_event_id =
        some (latest.id.getD "") := by simp [markAlerted]
    have h := alertedHit_no_dispatch env _ inp fd latest es hfeed hev hcommit
    exact ⟨h.1, h.2.1⟩

def c4KV : KV := ⟨none, none, none, none, none, none, none,
  TargetsRaw.arr [⟨some "u", some "+560001", some (JSNum.fin 4), some "Lejos", true⟩]⟩

def c4Payload : Payload :=
  ⟨some ⟨some "P4", none, none, none, some (JSNum.fin 5), none, none⟩,
   some [⟨some "Cerca", some "5"⟩]⟩

def c4Latest : FeedEvent := ⟨some "E4", some (MagVal.num (JSNum.fin 5)), none, none⟩

def c4Inp : TickInput := ⟨some (FeedData.arr [c4Latest]), some c4Payload, fun _ => true, "T1"⟩

/-- Witness for C4: a concrete tick whose only target matches no enrichment
location dispatches nothing yet commits the watermark, storing the feed id
as the dedup key and the enrichment id as the payload id. -/
theorem no_targets_selected_commits_witness :
    (checkForNewEvent baseEnv c4KV c4Inp).dispatches = [] ∧
    (checkForNewEvent baseEnv c4KV c4Inp).kv.last_alerted_event_id = some "E4" ∧
    (checkForNewEvent baseEnv c4KV c4Inp).kv.last_alerted_payload_id = some "P4" := by
  have h := no_targets_selected_commits baseEnv c4KV c4Inp (FeedData.arr [c4Latest])
    c4Latest [] 5 c4Payload (by decide) rfl rfl rfl (by decide) rfl (by decide)
    (by decide) rfl (by decide) (by decide)
  exact ⟨h.1, h.2.1, h.2.2.2.2.1 "P4" rfl (by decide)⟩

/-- C5: Empty-registry abort is non-committing: on a tick where loading
targets yields the empty list (which loadTargets produces exactly for a
missing key, malformed JSON, a non-array value, or an empty array), the run
dispatches nothing and leaves every last_alerted key unchanged, so the same
pending event id is still eligible on a later tick once a working target
list exists. -/
theorem empty_registry_noncommit (env : Env) (kv : KV) (inp : TickInput)
    (fd : FeedData) (latest : FeedEvent) (es : List FeedEvent) (m : ℚ)
    (payload : Payload)
    (h1 : ¬ env.RAILWAY_BASE_URL.getD "" = "")
    (h2 : env.hasYatiKV = true)
    (hfeed : inp.feed = some fd)
    (hev : extractEvents fd = latest :: es)
    (hid : ¬ latest.id.getD "" = "")
    (hM : eventMag latest = JSNum.fin m)
    (ha : ¬ kv.last_alerted_event_id = some (latest.id.getD ""))
    (hg : jsLt (JSNum.fin m)
      (parseFloatJS (jsOrStr (env.MIN_EVENT_MAGNITUDE.getD "") "4")) = false)
    (hp : inp.enrich = some payload)
    (ht0 : loadTargets kv.alert_targets_v1 = []) :
    (checkForNewEvent env kv inp).dispatches = [] ∧
    (checkForNewEvent env kv inp).okCount = 0 ∧
    (checkForNewEvent env kv inp).kv.last_alerted_event_id = kv.last_alerted_event_id ∧
    (checkForNewEvent env kv inp).kv.last_alerted_payload_id = kv.last_alerted_payload_id ∧
    (checkForNewEvent env kv inp).kv.last_alerted_mag = kv.last_alerted_mag ∧
    (checkForNewEvent env kv inp).kv.last_alerted_at = kv.last_alerted_at ∧
    (loadTargets TargetsRaw.missing = [] ∧ loadTargets TargetsRaw.malformed = [] ∧
      loadTargets TargetsRaw.nonArray = [] ∧ loadTargets (TargetsRaw.arr []) = []) := by
  by_cases hseen : kv.last_seen_event_id = some (latest.id.getD "") <;>
    simp [checkForNewEvent, h1, h2, hfeed, hev, hid, hM, hseen, ha, hg, hp, ht0, markSeen] <;>
    exact ⟨rfl, rfl, rfl, rfl⟩

def c5KV : KV := ⟨none, none, none, some "E0", none, none, none, TargetsRaw.missing⟩

def c5Latest : FeedEvent := ⟨some "E5", some (MagVal.num (JSNum.fin 5)), none, none⟩

def c5Inp : TickInput := ⟨some (FeedData.arr [c5Latest]),
  some ⟨some ⟨none, none, none, none, some (JSNum.fin 5), none, none⟩, some []⟩,
  fun _ => true, "T1"⟩

/-- Witness for C5: with the target registry key missing, a concrete
eligible event produces no dispatch and an unchanged alerted watermark. -/
theorem empty_registry_noncommit_witness :
    (checkForNewEvent baseEnv c5KV c5Inp).dispatches = [] ∧
    (checkForNewEvent baseEnv c5KV c5Inp).kv.last_alerted_event_id =
      c5KV.last_alerted_event_id := by
  have h := empty_registry_noncommit baseEnv c5KV c5Inp (FeedData.arr [c5Latest])
    c5Latest [] 5 ⟨some ⟨none, none, none, none, some (JSNum.fin 5), none, none⟩, some []⟩
    (by decide) rfl rfl rfl (by decide) rfl (by decide) (by decide) rfl rfl
  exact ⟨h.1, h.2.2.1⟩

theorem jsLt_nan_right (x : JSNum) : jsLt x JSNum.nan = false := by
  cases x <;> rfl

theorem jsLt_nan_left (x : JSNum) : jsLt JSNum.nan x = false := by
  cases x <;> rfl

theorem jsGe_true_jsLt_false (a b : JSNum) (h : jsGe a b = true) : jsLt a b = false := by
  cases a <;> cases b <;> simp_all [jsGe, jsLt, not_lt]

/-- The early-return chain of the filter predicate written as one
conjunction. -/
theorem selectTarget_conj (mag : JSNum) (locNames : List String) (t : Target) :
    selectTarget mag locNames t =
      (t.enabled && !(jsLt mag t.min_mag) &&
        (jsTrim t.localidad == "" ||
          locNames.contains (jsToLower (jsTrim t.localidad)))) := by
  obtain ⟨u, ph, mm, loc, en⟩ := t
  by_cases he : en <;> by_cases hl : jsLt mag mm = true <;>
    by_cases hloc : jsTrim loc = "" <;>
      simp [selectTarget, he, hl, hloc]

/-- C6 counterexample: the claimed selection predicate (with the JS
comparison mag >= Number(t.min_mag ?? 0)) disagrees with the code on a
registry entry whose min_mag is a non-numeric JSON value: Number of it is
NaN, the code's test (mag < NaN) is false so the target passes, while the
claimed test (mag >= NaN) is false so the claim says it is rejected. -/
theorem target_filter_predicate_cex :
    selectTarget (JSNum.fin 5) [] ⟨"", "+1", JSNum.nan, "", true⟩ = true ∧
    specSelectTarget (JSNum.fin 5) [] ⟨"", "+1", JSNum.nan, "", true⟩ = false ∧
    loadTargets (TargetsRaw.arr [⟨none, some "+1", some JSNum.nan, none, true⟩]) =
      [⟨"", "+1", JSNum.nan, "", true⟩] := by
  refine ⟨rfl, rfl, rfl⟩

/-- C6 (amended): a target t is selected iff t.enabled is true AND NOT
(mag < Number(t.min_mag ?? 0)) AND (the trimmed t.localidad is empty OR its
lowercased form is a member of the lowercased non-empty enrichment location
names); the magnitude conjunct coincides with mag >= Number(t.min_mag ?? 0)
whenever both sides are actual numbers, and rejects no target when
Number(t.min_mag ?? 0) is NaN; in particular a target with empty localidad
is selected for every event clearing its min_mag, regardless of the
locations list (even an empty one). -/
theorem target_filter_predicate_amended (mag : JSNum) (locNames : List String)
    (t : Target) :
    (selectTarget mag locNames t =
      (t.enabled && !(jsLt mag t.min_mag) &&
        (jsTrim t.localidad == "" ||
          locNames.contains (jsToLower (jsTrim t.localidad))))) ∧
    (∀ q r : ℚ, mag = JSNum.fin q → t.min_mag = JSNum.fin r →
      selectTarget mag locNames t = specSelectTarget mag locNames t) ∧
    (t.min_mag = JSNum.nan →
      selectTarget mag locNames t =
        (t.enabled && (jsTrim t.localidad == "" ||
          locNames.contains (jsToLower (jsTrim t.localidad))))) ∧
    (t.localidad = "" → t.enabled = true → jsGe mag t.min_mag = true →
      selectTarget mag locNames t = true) := by
  obtain ⟨u, ph, mm, loc, en⟩ := t
  have hA := selectTarget_conj mag locNames ⟨u, ph, mm, loc, en⟩
  refine ⟨hA, ?_, ?_, ?_⟩
  · rintro q r rfl hr
    simp only at hr
    subst hr
    have hcmp : (!(jsLt (JSNum.fin q) (JSNum.fin r))) =
        jsGe (JSNum.fin q) (JSNum.fin r) := by
      simp only [jsLt, jsGe]
      by_cases hqr : q < r
      · simp [hqr, not_le.mpr hqr]
      · simp [hqr, le_of_not_lt hqr]
    rw [hA, hcmp]
    rfl
  · intro hmm
    simp only at hmm
    subst hmm
    rw [hA, jsLt_nan_right]
    cases en <;> rfl
  · intro hloc he hge
    simp only at hloc he
    subst hloc
    rw [hA, jsGe_true_jsLt_false mag mm hge, he]
    rfl

def c6Target : Target := ⟨"u", "+560001", JSNum.fin 4, "", true⟩

/-- Witness for C6 (amended) at a concrete wildcard target: both the
numeric-coincidence part and the wildcard part evaluate as stated. -/
theorem target_filter_predicate_amended_witness :
    selectTarget (JSNum.fin 5) [] c6Target = specSelectTarget (JSNum.fin 5) [] c6Target ∧
    selectTarget (JSNum.fin 5) [] c6Target = true := by
  have h := target_filter_predicate_amended (JSNum.fin 5) [] c6Target
  exact ⟨h.2.1 5 4 rfl rfl, h.2.2.2 rfl rfl (by decide)⟩

/-- C7: Heterogeneous magnitude extraction and validation: the engine
derives the magnitude from a plain number, from a decimal-comma string
(for example "5,2" parses to 5.2), or from a nested object with a value
field, and a tick whose latest event has an empty extracted id or a
non-finite parsed magnitude aborts with no watermark mutation at all. -/
theorem magnitude_extraction_validation :
    (∀ (idf : Option String) (x : JSNum),
      eventMag ⟨idf, some (MagVal.num x), none, none⟩ = x) ∧
    (∀ (idf : Option String),
      eventMag ⟨idf, some (MagVal.str "5,2"), none, none⟩ = JSNum.fin (26 / 5)) ∧
    (∀ (e : FeedEvent) (s : String), e.magnitude = some (MagVal.str s) →
      e.magnitud = none → e.mag = none →
      eventMag e = parseFloatJS (replaceFirstComma s)) ∧
    (∀ (e : FeedEvent) (x : JSNum),
      e.magnitude = some (MagVal.objSome (MagVal.num x)) → eventMag e = x) ∧
    (∀ (env : Env) (kv : KV) (inp : TickInput) (fd : FeedData)
      (latest : FeedEvent) (es : List FeedEvent),
      inp.feed = some fd → extractEvents fd = latest :: es →
      (latest.id.getD "" = "" ∨ isFiniteJS (eventMag latest) = false) →
      checkForNewEvent env kv inp = ⟨kv, false, [], 0⟩) := by
  refine ⟨fun idf x => rfl, ?_, ?_, ?_, ?_⟩
  · intro idf
    have h1 : eventMag ⟨idf, some (MagVal.str "5,2"), none, none⟩ =
        JSNum.fin (Rat.divInt 52 10) := by
      have h2 : parseFloatJS (replaceFirstComma "5,2") = JSNum.fin (Rat.divInt 52 10) := by
        decide
      exact h2
    rw [h1]
    congr 1
    norm_num [Rat.divInt_eq_div]
  · intro e s hmag hm1 hm2
    simp [eventMag, pickMagVal, parseMag, hmag, hm1, hm2]
  · intro e x hmag
    simp [eventMag, pickMagVal, parseMag, hmag]
  · intro env kv inp fd latest es hfeed hev hbad
    by_cases h1 : env.RAILWAY_BASE_URL.getD "" = ""
    · simp [checkForNewEvent, h1]
    by_cases h2 : env.hasYatiKV
    swap
    · simp [checkForNewEvent, h1, h2]
    rcases hbad with hid0 | hnf
    · simp [checkForNewEvent, h1, h2, hfeed, hev, hid0]
    · by_cases hid0 : latest.id.getD "" = ""
      · simp [checkForNewEvent, h1, h2, hfeed, hev, hid0]
      · rcases hM : eventMag latest with _ | _ | _ | m
        · simp [checkForNewEvent, h1, h2, hfeed, hev, hid0, hM]
        · simp [checkForNewEvent, h1, h2, hfeed, hev, hid0, hM]
        · simp [checkForNewEvent, h1, h2, hfeed, hev, hid0, hM]
        · rw [hM] at hnf
          simp [isFiniteJS] at hnf

def c7Latest : FeedEvent := ⟨some "E7", some (MagVal.str "abc"), none, none⟩

def c7KV : KV := ⟨some "S0", none, none, some "E0", none, none, none, TargetsRaw.missing⟩

def c7Inp : TickInput := ⟨some (FeedData.arr [c7Latest]), none, fun _ => true, "T1"⟩

/-- Witness for C7: the comma-decimal example evaluates to 5.2, and a
concrete event with an unparseable magnitude leaves the whole KV state
untouched. -/
theorem magnitude_extraction_validation_witness :
    eventMag ⟨some "E1", some (MagVal.str "5,2"), none, none⟩ = JSNum.fin (26 / 5) ∧
    checkForNewEvent baseEnv c7KV c7Inp = ⟨c7KV, false, [], 0⟩ := by
  have h := magnitude_extraction_validation
  exact ⟨h.2.1 (some "E1"),
    h.2.2.2.2 baseEnv c7KV c7Inp (FeedData.arr [c7Latest]) c7Latest [] rfl rfl
      (Or.inr (by decide))⟩

/-- C8: Unconditional seen-watermark update: on every tick whose latest
event passes id and magnitude validation, if the latest id differs from the
stored last_seen_event_id then last_seen_event_id, last_seen_mag and
last_seen_at are persisted with the new event's values — even when the
event is already alerted, below the global threshold, or otherwise never
triggers an alert — and if the id is unchanged no seen-watermark write
occurs. -/
theorem seen_watermark_update (env : Env) (kv : KV) (inp : TickInput)
    (fd : FeedData) (latest : FeedEvent) (es : List FeedEvent) (m : ℚ)
    (h1 : ¬ env.RAILWAY_BASE_URL.getD "" = "")
    (h2 : env.hasYatiKV = true)
    (hfeed : inp.feed = some fd)
    (hev : extractEvents fd = latest :: es)
    (hid : ¬ latest.id.getD "" = "")
    (hM : eventMag latest = JSNum.fin m) :
    (kv.last_seen_event_id ≠ some (latest.id.getD "") →
      (checkForNewEvent env kv inp).kv.last_seen_event_id = some (latest.id.getD "") ∧
      (checkForNewEvent env kv inp).kv.last_seen_mag = some (JSNum.fin m) ∧
      (checkForNewEvent env kv inp).kv.last_seen_at = some inp.now) ∧
    (kv.last_seen_event_id = some (latest.id.getD "") →
      (checkForNewEvent env kv inp).kv.last_seen_event_id = kv.last_seen_event_id ∧
      (checkForNewEvent env kv inp).kv.last_seen_mag = kv.last_seen_mag ∧
      (checkForNewEvent env kv inp).kv.last_seen_at = kv.last_seen_at) := by
  constructor <;> intro hseen <;>
  · by_cases ha : kv.last_alerted_event_id = some (latest.id.getD "")
    · simp [checkForNewEvent, h1, h2, hfeed, hev, hid, hM, hseen, ha, markSeen]
    by_cases hg : jsLt (JSNum.fin m)
        (parseFloatJS (jsOrStr (env.MIN_EVENT_MAGNITUDE.getD "") "4")) = true
    · simp [checkForNewEvent, h1, h2, hfeed, hev, hid, hM, hseen, ha, hg, markSeen]
    rcases hp : inp.enrich with _ | payload
    · simp [checkForNewEvent, h1, h2, hfeed, hev, hid, hM, hseen, ha, hg, hp, markSeen]
    by_cases ht : (loadTargets kv.alert_targets_v1).isEmpty = true
    · simp [checkForNewEvent, h1, h2, hfeed, hev, hid, hM, hseen, ha, hg, hp, ht, markSeen]
    by_cases hsel : ((loadTargets kv.alert_targets_v1).filter
        (selectTarget (effectiveMag payload m) (locNamesOf payload))).isEmpty = true
    · simp [checkForNewEvent, h1, h2, hfeed, hev, hid, hM, hseen, ha, hg, hp, ht, hsel,
        markSeen, markAlerted]
    by_cases hd : (dispatchLoop inp.sendOk ((loadTargets kv.alert_targets_v1).filter
        (selectTarget (effectiveMag payload m) (locNamesOf payload))) 0).2 > 0 <;>
      simp [checkForNewEvent, h1, h2, hfeed, hev, hid, hM, hseen, ha, hg, hp, ht, hsel,
        hd, markSeen, markAlerted]

def c8KV : KV := ⟨some "S0", some (JSNum.fin 2), some "T0", some "E8", none, none, none,
  TargetsRaw.missing⟩

def c8Latest : FeedEvent := ⟨some "E8", some (MagVal.num (JSNum.fin 3)), none, none⟩

def c8Inp : TickInput := ⟨some (FeedData.arr [c8Latest]), none, fun _ => true, "T8"⟩

/-- Witness for C8: a concrete already-alerted, below-threshold event still
updates the seen watermark to its id, magnitude and timestamp. -/
theorem seen_watermark_update_witness :
    (checkForNewEvent baseEnv c8KV c8Inp).kv.last_seen_event_id = some "E8" ∧
    (checkForNewEvent baseEnv c8KV c8Inp).kv.last_seen_mag = some (JSNum.fin 3) ∧
    (checkForNewEvent baseEnv c8KV c8Inp).kv.last_seen_at = some "T8" := by
  have h := (seen_watermark_update baseEnv c8KV c8Inp (FeedData.arr [c8Latest]) c8Latest []
    3 (by decide) rfl rfl rfl (by decide) rfl).1 (by decide)
  exact h

/-- C9: Test-alert endpoint gating: a /test-alert request is answered 404
whenever ENABLE_TEST_ALERT is not "1"; when enabled, it is answered 401
whenever the pin query parameter does not equal the configured
TEST_ALERT_PIN (in particular whenever no PIN secret is configured at all);
and a dispatch pass is only ever scheduled for a matching non-empty PIN, in
which case the response is the fixed immediate acknowledgment, produced
without waiting for the scheduled dispatch outcome. -/
theorem test_alert_gating (env : TAEnv) (pinQ toQ msgQ : Option String) :
    (env.ENABLE_TEST_ALERT ≠ some "1" →
      (handleTestAlert env pinQ toQ msgQ).1.status = 404 ∧
      (handleTestAlert env pinQ toQ msgQ).2 = none) ∧
    (env.ENABLE_TEST_ALERT = some "1" →
      pinQ.getD "" ≠ env.TEST_ALERT_PIN.getD "" →
      (handleTestAlert env pinQ toQ msgQ).1.status = 401 ∧
      (handleTestAlert env pinQ toQ msgQ).2 = none) ∧
    (env.ENABLE_TEST_ALERT = some "1" → env.TEST_ALERT_PIN = none →
      (handleTestAlert env pinQ toQ msgQ).1.status = 401 ∧
      (handleTestAlert env pinQ toQ msgQ).2 = none) ∧
    (∀ job, (handleTestAlert env pinQ toQ msgQ).2 = some job →
      pinQ.getD "" = env.TEST_ALERT_PIN.getD "" ∧
      env.TEST_ALERT_PIN.getD "" ≠ "" ∧
      (handleTestAlert env pinQ toQ msgQ).1 = ⟨200, "OK - test alert triggered"⟩) := by
  by_cases hen : env.ENABLE_TEST_ALERT = some "1"
  · by_cases hsec : env.TEST_ALERT_PIN.getD "" = ""
    · simp [handleTestAlert, hen, hsec]
    · by_cases hpin : pinQ.getD "" = env.TEST_ALERT_PIN.getD ""
      · simp [handleTestAlert, hen, hsec, hpin]
        intro hnone
        rw [hnone] at hsec
        simp at hsec
      · simp [handleTestAlert, hen, hsec, hpin]
  · simp [handleTestAlert, hen]

/-- Witness for C9: a disabled endpoint answers 404, a wrong or unset PIN
answers 401, and a matching PIN yields the immediate acknowledgment with
the dispatch job scheduled. -/
theorem test_alert_gating_witness :
    (handleTestAlert ⟨none, some "p", none⟩ (some "p") none none).1.status = 404 ∧
    (handleTestAlert ⟨some "1", some "p", none⟩ (some "x") none none).1.status = 401 ∧
    (handleTestAlert ⟨some "1", none, none⟩ none none none).1.status = 401 ∧
    (handleTestAlert ⟨some "1", some "p", some "+56"⟩ (some "p") none (some "hi")).1 =
      ⟨200, "OK - test alert triggered"⟩ := by
  refine ⟨(test_alert_gating ⟨none, some "p", none⟩ (some "p") none none).1
      (by decide) |>.1,
    (test_alert_gating ⟨some "1", some "p", none⟩ (some "x") none none).2.1
      rfl (by decide) |>.1,
    (test_alert_gating ⟨some "1", none, none⟩ none none none).2.2.1 rfl rfl |>.1,
    (test_alert_gating ⟨some "1", some "p", some "+56"⟩ (some "p") none
      (some "hi")).2.2.2 ("+56", "hi") rfl |>.2.2⟩

/-- C10: Implicit NaN edge case of the per-target magnitude gate: when the
enrichment response's evento.magnitud field is present but does not convert
to a number, the effective magnitude is NaN; since a NaN comparison
(mag < min) is false for every minimum, the per-target minimum-magnitude
test rejects no target, so every enabled target whose localidad is empty or
matches an enrichment location name is selected, and the tick's dispatch
list is exactly the Twilio loop over those targets. -/
theorem nan_magnitude_selects_all (env : Env) (kv : KV) (inp : TickInput)
    (fd : FeedData) (latest : FeedEvent) (es : List FeedEvent) (m : ℚ)
    (payload : Payload)
    (h1 : ¬ env.RAILWAY_BASE_URL.getD "" = "")
    (h2 : env.hasYatiKV = true)
    (hfeed : inp.feed = some fd)
    (hev : extractEvents fd = latest :: es)
    (hid : ¬ latest.id.getD "" = "")
    (hM : eventMag latest = JSNum.fin m)
    (ha : ¬ kv.last_alerted_event_id = some (latest.id.getD ""))
    (hg : jsLt (JSNum.fin m)
      (parseFloatJS (jsOrStr (env.MIN_EVENT_MAGNITUDE.getD "") "4")) = false)
    (hp : inp.enrich = some payload)
    (ht : (loadTargets kv.alert_targets_v1).isEmpty = false)
    (hnan : (payload.evento.getD Evento.empty).magnitud = some JSNum.nan) :
    (∀ x : JSNum, jsLt JSNum.nan x = false) ∧
    effectiveMag payload m = JSNum.nan ∧
    (∀ t : Target, selectTarget (effectiveMag payload m) (locNamesOf payload) t =
      (t.enabled && (jsTrim t.localidad == "" ||
        (locNamesOf payload).contains (jsToLower (jsTrim t.localidad))))) ∧
    (checkForNewEvent env kv inp).dispatches =
      (dispatchLoop inp.sendOk ((loadTargets kv.alert_targets_v1).filter
        (fun t => t.enabled && (jsTrim t.localidad == "" ||
          (locNamesOf payload).contains (jsToLower (jsTrim t.localidad))))) 0).1 := by
  have hmag : effectiveMag payload m = JSNum.nan := by
    simp [effectiveMag, hnan]
  have hsel : ∀ t : Target,
      selectTarget (effectiveMag payload m) (locNamesOf payload) t =
        (t.enabled && (jsTrim t.localidad == "" ||
          (locNamesOf payload).contains (jsToLower (jsTrim t.localidad)))) := by
    intro t
    rw [selectTarget_conj, hmag, jsLt_nan_left]
    cases t.enabled <;> rfl
  refine ⟨jsLt_nan_left, hmag, hsel, ?_⟩
  rw [dispatches_eq env kv inp fd latest es m payload h1 h2 hfeed hev hid hM ha hg hp ht,
    funext hsel]

def c10KV : KV := ⟨none, none, none, none, none, none, none,
  TargetsRaw.arr [⟨some "u", some "+560001", some (JSNum.fin 9), some "", true⟩,
    ⟨some "v", some "+560002", some (JSNum.fin 9), some "", false⟩]⟩

def c10Target : Target := ⟨"u", "+560001", JSNum.fin 9, "", true⟩

def c10Payload : Payload :=
  ⟨some ⟨none, none, none, none, some JSNum.nan, none, none⟩, some []⟩

def c10Latest : FeedEvent := ⟨some "EA", some (MagVal.num (JSNum.fin 5)), none, none⟩

def c10Inp : TickInput :=
  ⟨some (FeedData.arr [c10Latest]), some c10Payload, fun _ => true, "T1"⟩

/-- Witness for C10: with an unparseable enrichment magnitude, an enabled
wildcard target whose min_mag (9) exceeds the feed magnitude (5) is still
selected and dispatched to. -/
theorem nan_magnitude_selects_all_witness :
    selectTarget (effectiveMag c10Payload 5) (locNamesOf c10Payload) c10Target = true ∧
    (checkForNewEvent baseEnv c10KV c10Inp).dispatches = ["+560001"] := by
  have h := nan_magnitude_selects_all baseEnv c10KV c10Inp (FeedData.arr [c10Latest])
    c10Latest [] 5 c10Payload (by decide) rfl rfl rfl (by decide) rfl (by decide)
    (by decide) rfl (by decide) rfl
  constructor
  · rw [h.2.2.1 c10Target]
    decide
  · rw [h.2.2.2]
    decide

end Yati
